import Mathlib

/-!
Verification of the wxauto-bridge protocol layer (bridge.py, wechat_handler.py,
media_server.py) against its natural-language specification.

Each definition below is a shallow embedding of one function of the source,
translated statement by statement; external effects (the wxauto automation
library, the filesystem, the event loop) appear as explicit oracle parameters
so that every definition is a total, executable Lean function.
-/

/-- A JSON-RPC id value as it can appear in an inbound frame: a string, a
number, or JSON null.  (bridge.py stores only fresh `str(uuid.uuid4())` keys
in `_pending_requests`, so only string ids can ever match a pending entry;
Python truthiness of the id decides whether a response is sent back.) -/
inductive JsonId where
  | str (s : String)
  | num (n : Int)
  | nul
deriving DecidableEq, Repr

/-- Python truthiness of an id value, as tested by `if request_id:` in
bridge.py line 250: a non-empty string or a non-zero number is truthy;
`""`, `0` and `None` are falsy. -/
def JsonId.truthy : JsonId → Bool
  | JsonId.str s => s ≠ ""
  | JsonId.num n => n ≠ 0
  | JsonId.nul => false

/-- A JSON-RPC error object `{code, message}` (bridge.py lines 245, 247). -/
structure RpcError where
  code : Int
  message : String
deriving DecidableEq, Repr

/-- The body a response frame carries: `_send_response` (bridge.py lines
499-514) puts an `error` member when the error argument is truthy and a
`result` member otherwise. -/
inductive RpcReply (α : Type) where
  | ok (v : α)
  | err (e : RpcError)
deriving DecidableEq, Repr

/-- Outcome of running one command handler inside the `try` of
`_handle_message` (bridge.py lines 227-247): the handler either returns a
value or raises, and a raised exception becomes a -32000 error. -/
inductive HandlerRun (α : Type) where
  | ok (v : α)
  | exn (msg : String)

/-- An inbound frame as `_handle_message` (bridge.py lines 208-251) sees it
after `json.loads`: each field is `some _` exactly when the corresponding
key is present in the decoded object.  `params` is not modelled because the
dispatch logic under verification never branches on it (it is passed opaquely
to the handlers, which are oracle parameters here).  Ids of other JSON types
than string/number/null are not modelled; they behave like `nul` in both
uses (pending-table lookup and truthiness). -/
structure InboundMsg (α : Type) where
  idK : Option JsonId
  resultK : Option α
  errorK : Option RpcError
  methodK : Option String
deriving Repr

/-- The dispatcher's method table, bridge.py lines 228-243 (the `if/elif`
chain), matched with Python `==`, i.e. case-sensitively. -/
def knownMethods : List String :=
  ["send", "sendFile", "getStatus", "getContacts", "addListen",
   "removeListen", "getMediaInfo", "ping"]

/-- Effect of `_handle_message` on the world: `completion` is the
`set_result`/`set_exception` call performed on a pending future keyed by the
given request id (the source only ever calls `set_result`, i.e. `Except.ok`),
and `reply` is the `_send_response` call performed, if any. -/
structure HMOut (α : Type) where
  completion : Option (String × Except RpcError α)
  reply : Option (JsonId × RpcReply α)
deriving Repr

/-- Shallow embedding of `WeChatBridge._handle_message` (bridge.py lines
208-251).  `run` is the oracle giving each known method's handler outcome;
`pending` is the key set of `_pending_requests`.

Line-by-line: if the frame has both an `id` and a `result` key it is treated
as a response — when the id is a string found in the pending table that
future gets `set_result(data.get("result"))`, otherwise nothing happens —
and the function returns.  Otherwise the frame is dispatched as a request:
a known method runs its handler (an exception becoming error -32000), an
unknown or absent method yields error -32601 with message
`f"Method not found: {method}"` (Python renders an absent method as `None`),
and a response is sent back iff `request_id` is truthy. -/
def handle_message {α : Type} (run : String → HandlerRun α)
    (pending : List String) (d : InboundMsg α) : HMOut α :=
  match d.idK, d.resultK with
  | some rid, some v =>
    (match rid with
     | JsonId.str s =>
       if s ∈ pending then ⟨some (s, Except.ok v), none⟩ else ⟨none, none⟩
     | _ => ⟨none, none⟩)
  | some rid, none =>
    ⟨none, if rid.truthy then some (rid, dispatchBody run d.methodK) else none⟩
  | none, _ => ⟨none, none⟩
where
  /-- The `result`/`error` computed by the `try`/`except` dispatch,
  bridge.py lines 224-247. -/
  dispatchBody (run : String → HandlerRun α) : Option String → RpcReply α
    | some m =>
      if m ∈ knownMethods then
        match run m with
        | HandlerRun.ok v => RpcReply.ok v
        | HandlerRun.exn msg => RpcReply.err ⟨-32000, msg⟩
      else RpcReply.err ⟨-32601, "Method not found: " ++ m⟩
    | none => RpcReply.err ⟨-32601, "Method not found: None"⟩

/-- State of the RPC correlator: `table` is the key set of
`_pending_requests` (bridge.py line 84) and `completions` records every
`set_result`/`set_exception` performed on one of its futures. -/
structure CorrState (α : Type) where
  table : List String
  completions : List (String × Except RpcError α)
deriving Repr

/-- The events of the bridge that can touch the pending-request table. -/
inductive BridgeEvent (α : Type) where
  | frame (d : InboundMsg α)
  | connLost
  | stopped
  | register (rid : String)
  | finish (rid : String)

/-- One step of the bridge, restricted to its effect on the pending-request
table and its futures; each branch is translated from the source:

* `frame d` — the read loop delivers a frame to `_handle_message`
  (bridge.py lines 197-251); only the `set_result` on a matched response
  touches a pending future, and no branch mutates the table itself.
* `connLost` — `websockets.ConnectionClosed` ends `_message_loop` and is
  absorbed by the reconnect loop in `start` (bridge.py lines 159-181),
  which sleeps and reconnects; no statement there reads or writes
  `_pending_requests`, so the state is unchanged.
* `stopped` — `stop` (bridge.py lines 183-195) closes the socket, stops the
  media server and disconnects the handler; it too never touches
  `_pending_requests`.
* `register rid` — `_send_request` inserts a fresh future under `rid`
  (bridge.py line 530).
* `finish rid` — the `finally` of `_send_request` pops `rid` from the table
  (bridge.py line 537); this runs when the awaited future completes, when
  `asyncio.wait_for` times out, or when the send raises. -/
def corrStep {α : Type} (run : String → HandlerRun α) :
    BridgeEvent α → CorrState α → CorrState α
  | BridgeEvent.frame d, s =>
    match (handle_message run s.table d).completion with
    | some c => ⟨s.table, c :: s.completions⟩
    | none => s
  | BridgeEvent.connLost, s => s
  | BridgeEvent.stopped, s => s
  | BridgeEvent.register rid, s => ⟨rid :: s.table, s.completions⟩
  | BridgeEvent.finish rid, s => ⟨s.table.erase rid, s.completions⟩

/-- A trivial handler oracle used to instantiate concrete scenarios. -/
def runNone : String → HandlerRun String := fun _ => HandlerRun.ok "unused"

/-- A result dict `{"success": bool, "error": str?}` as returned by the
WeChatHandler operations (wechat_handler.py); `error` is `some _` exactly
when the dict carries an "error" key. -/
structure OpResult where
  success : Bool
  error : Option String
deriving DecidableEq, Repr

/-- Outcome of one call into the wxauto library: the call returns an object
with `success = True`; or with `success = False` and a `message`; or raises
an exception whose `str()` is `msg`. -/
inductive WxAttempt where
  | ok
  | fail (msg : String)
  | exn (msg : String)
deriving DecidableEq, Repr

/-- Python `f"{x}"` rendering of an `Optional[str]`: `None` prints as
"None". -/
def optShow : Option String → String
  | some s => s
  | none => "None"

/-- The retry loop of `WeChatHandler.send_message` (wechat_handler.py lines
204-231): up to `max_retries = 3` attempts; the first successful `SendMsg`
returns `{"success": True}`; a failed attempt records `result.message` (an
exception records `str(e)`) as `last_error`; after the attempts are
exhausted the error is the wrapped string
`f"发送消息失败 (已重试 {max_retries} 次): {last_error}"`. -/
def sendAttempts : List WxAttempt → Option String → OpResult
  | [], last => ⟨false, some ("发送消息失败 (已重试 3 次): " ++ optShow last)⟩
  | WxAttempt.ok :: _, _ => ⟨true, none⟩
  | WxAttempt.fail m :: rest, _ => sendAttempts rest (some m)
  | WxAttempt.exn m :: rest, _ => sendAttempts rest (some m)

/-- Shallow embedding of `WeChatHandler.send_message` (wechat_handler.py
lines 193-231).  `connected` is `self._wx is not None`; `outcomes` is the
oracle stream of wxauto `SendMsg` call outcomes, of which the loop consumes
at most 3. -/
def send_message (connected : Bool) (outcomes : List WxAttempt) : OpResult :=
  if connected then sendAttempts (outcomes.take 3) none
  else ⟨false, some "微信未连接"⟩

/-- Path separator characters (Windows paths use both). -/
def isSep (c : Char) : Bool := c = '/' ∨ c = '\\'

/-- Python's substring test `pat in s` for a non-empty `pat` (and
`"" in s` is `True`, matching the `pat = []` case). -/
def containsTok (pat : List Char) : List Char → Bool
  | [] => decide (pat = [])
  | c :: rest => pat.isPrefixOf (c :: rest) || containsTok pat rest

/-- Split a character list on path separators (used only to state the
claim's notion of a `..` path *component*, which the source's substring
check `".." in str(path)` over-approximates). -/
def splitSep : List Char → List (List Char)
  | [] => [[]]
  | c :: rest =>
    if isSep c then [] :: splitSep rest
    else
      match splitSep rest with
      | [] => [[c]]
      | g :: gs => (c :: g) :: gs

/-- The string has a path component that is exactly "..". -/
def hasDotDotComponent (s : String) : Bool :=
  decide (['.', '.'] ∈ splitSep s.data)

/-- Filesystem oracle for `validate_file_path`: `resolve` is
`str(Path(x).resolve())` (absolutize + normalize), `pathExists`/`isFile`
are `Path.exists`/`Path.is_file` on a resolved path string, and
`relOk p d` tells whether `Path(p).relative_to(Path(d))` succeeds, i.e.
whether `p` lies under directory `d`. -/
structure PathFS where
  resolve : String → String
  pathExists : String → Bool
  isFile : String → Bool
  relOk : String → String → Bool

/-- Shallow embedding of `validate_file_path` (wechat_handler.py lines
32-73), returning the `(is_valid, error_message)` tuple.  The checks run in
the source's order: existence, regular-file, the substring check
`".." in str(path)` on the resolved path, then (only when the
`WECHAT_ALLOWED_FILE_DIRS` whitelist `allowedDirs` is non-empty) membership
under at least one whitelisted directory. -/
def validate_file_path (fs : PathFS) (allowedDirs : List String)
    (fp : String) : Bool × String :=
  let p := fs.resolve fp
  if fs.pathExists p = false then (false, "文件不存在: " ++ fp)
  else if fs.isFile p = false then (false, "路径不是文件: " ++ fp)
  else if containsTok ['.', '.'] p.data then (false, "路径包含非法字符: " ++ fp)
  else if !allowedDirs.isEmpty &&
      allowedDirs.all (fun d => !(fs.relOk p (fs.resolve d))) then
    (false, "文件不在允许的目录中: " ++ fp)
  else (true, "")

/-- Shallow embedding of `WeChatHandler.send_file` (wechat_handler.py lines
233-257).  The second component of the result records whether the backend
call `self._wx.SendFiles(...)` was reached at all.  On a validation failure
the backend is never invoked; on a backend failure the wxauto
`result.message` is passed through; a raised exception is wrapped as
`f"发送文件失败: {e}"`. -/
def send_file (connected : Bool) (fs : PathFS) (allowedDirs : List String)
    (backend : WxAttempt) (fp : String) : OpResult × Bool :=
  if connected = false then (⟨false, some "微信未连接"⟩, false)
  else
    let v := validate_file_path fs allowedDirs fp
    if v.1 = false then (⟨false, some v.2⟩, false)
    else
      match backend with
      | WxAttempt.ok => (⟨true, none⟩, true)
      | WxAttempt.fail m => (⟨false, some m⟩, true)
      | WxAttempt.exn m => (⟨false, some ("发送文件失败: " ++ m)⟩, true)

/-- Python truthiness of an `Optional[str]` parameter (`if not to:` in
bridge.py line 260): truthy iff present and non-empty. -/
def optTruthy : Option String → Bool
  | some s => s ≠ ""
  | none => false

/-- The parameters of an inbound `send` command (bridge.py lines 255-258):
`to` may be absent, `text` defaults to `""`, `files` defaults to `[]`.  The
`at` parameter is not modelled: it is only forwarded opaquely to the
backend send and no claim concerns it. -/
structure SendParams where
  toK : Option String
  text : String
  files : List String
deriving Repr

/-- Result of `_handle_send` plus a record of which backend operations it
attempted: `filesAttempted` lists the file paths passed to
`wechat.send_file` in order, `textAttempted` tells whether
`wechat.send_message` was invoked. -/
structure HandleSendOut where
  ok : Bool
  error : Option String
  filesAttempted : List String
  textAttempted : Bool
deriving DecidableEq, Repr

/-- The file loop of `_handle_send` (bridge.py lines 264-268): send each
file in order; on the first failure stop and return that failing result.
First component: the failing `send_file` result, if any; second: the list
of files attempted, in order. -/
def filesLoop (fileRes : String → OpResult) :
    List String → Option OpResult × List String
  | [] => (none, [])
  | f :: rest =>
    if (fileRes f).success then
      ((filesLoop fileRes rest).1, f :: (filesLoop fileRes rest).2)
    else (some (fileRes f), [f])

/-- Shallow embedding of `WeChatBridge._handle_send` (bridge.py lines
253-281).  `fileRes` gives the `wechat.send_file(to, path)` result per path
and `msgRes` the `wechat.send_message(to, text, at)` result per text (the
backend capability interface as oracles; `to` is the fixed chat of this
call).  Missing/empty `to` short-circuits; files go first, aborting on the
first failure with that failure's `error`; the text is sent only if
non-empty, after all files; `{ok: true}` (with no error key) otherwise. -/
def handle_send (fileRes : String → OpResult) (msgRes : String → OpResult)
    (p : SendParams) : HandleSendOut :=
  if optTruthy p.toK = false then ⟨false, some "Missing 'to' parameter", [], false⟩
  else
    match (filesLoop fileRes p.files).1 with
    | some r => ⟨false, r.error, (filesLoop fileRes p.files).2, false⟩
    | none =>
      if p.text ≠ "" then
        if (msgRes p.text).success then ⟨true, none, (filesLoop fileRes p.files).2, true⟩
        else ⟨false, (msgRes p.text).error, (filesLoop fileRes p.files).2, true⟩
      else ⟨true, none, (filesLoop fileRes p.files).2, false⟩

/-- Outcome of the wxauto `AddListenChat` call: a truthy result, a falsy
result, or a raised exception. -/
inductive ListenCall where
  | ok
  | fails
  | exn (msg : String)
deriving DecidableEq, Repr

/-- Shallow embedding of `WeChatHandler.add_listener` (wechat_handler.py
lines 431-458), acting on the key list of `self._listen_chats` (insertion
order; a Python dict holds each key at most once).  A name already present
returns success without calling the backend; otherwise `AddListenChat` is
called, and only a truthy result inserts the name. -/
def add_listener (connected : Bool) (call : ListenCall) (chats : List String)
    (name : String) : OpResult × List String :=
  if connected = false then (⟨false, some "微信未连接"⟩, chats)
  else if name ∈ chats then (⟨true, none⟩, chats)
  else
    match call with
    | ListenCall.ok => (⟨true, none⟩, chats ++ [name])
    | ListenCall.fails => (⟨false, some "添加监听失败"⟩, chats)
    | ListenCall.exn m => (⟨false, some ("添加监听失败: " ++ m)⟩, chats)

/-- Outcome of the wxauto `RemoveListenChat` call. -/
inductive RemoveCall where
  | ok
  | exn (msg : String)
deriving DecidableEq, Repr

/-- Shallow embedding of `WeChatHandler.remove_listener` (wechat_handler.py
lines 460-479).  A name not in the listen table returns success and changes
nothing; otherwise `RemoveListenChat` runs and, when it does not raise, the
entry is deleted. -/
def remove_listener (connected : Bool) (call : RemoveCall) (chats : List String)
    (name : String) : OpResult × List String :=
  if connected = false then (⟨false, some "微信未连接"⟩, chats)
  else if name ∈ chats then
    match call with
    | RemoveCall.ok => (⟨true, none⟩, chats.erase name)
    | RemoveCall.exn m => (⟨false, some ("移除监听失败: " ++ m)⟩, chats)
  else (⟨true, none⟩, chats)

/-- ASCII whitespace as stripped by Python `str.strip()` (the inputs under
verification are ASCII-delimited; the full Unicode whitespace set of Python
is not needed by any claim). -/
def isPySpace (c : Char) : Bool :=
  c = ' ' ∨ c = '\t' ∨ c = '\n' ∨ c = '\r' ∨ c = '\x0B' ∨ c = '\x0C'

/-- Python `s.strip()` on a character list. -/
def pyStrip (l : List Char) : List Char :=
  ((l.dropWhile isPySpace).reverse.dropWhile isPySpace).reverse

/-- Python `s.replace(pat, "")` on character lists: delete the
left-to-right non-overlapping occurrences of `pat`.  `fuel` is an upper
bound on the number of steps (each step consumes at least one character);
callers pass the length of `s`, which always suffices, keeping the
recursion structural so that concrete inputs evaluate by `decide`. -/
def delOccF (pat : List Char) : Nat → List Char → List Char
  | _, [] => []
  | 0, s => s
  | fuel + 1, c :: rest =>
    if pat ≠ [] ∧ pat.isPrefixOf (c :: rest) = true then
      delOccF pat fuel ((c :: rest).drop pat.length)
    else c :: delOccF pat fuel rest

/-- Python `s.replace(pat, "")` on strings. -/
def pyDeleteAll (s pat : String) : String :=
  ⟨delOccF pat.data s.data.length s.data⟩

/-- Python `s.strip()` on strings. -/
def pyStripS (s : String) : String := ⟨pyStrip s.data⟩

/-- Python `pat in s` on strings. -/
def containsTokS (pat s : String) : Bool := containsTok pat.data s.data

/-- The mention-detection step of `WeChatHandler._on_message`
(wechat_handler.py lines 281-286): when the account nickname is truthy and
`f"@{nickname}"` occurs in the content, flag the message and replace every
occurrence of the token by "" and strip the result. -/
def mentionStep (nickname : Option String) (content : String) : Bool × String :=
  match nickname with
  | some nick =>
    if nick ≠ "" ∧ containsTokS ("@" ++ nick) content = true then
      (true, pyStripS (pyDeleteAll content ("@" ++ nick)))
    else (false, content)
  | none => (false, content)

/-- The `WeChatMessage` dataclass (wechat_handler.py lines 84-103).  The
wall-clock `timestamp` field is omitted: no claim depends on it. -/
structure WeChatMessage where
  sender : String
  content : String
  chat_name : String
  msg_type : String
  is_self : Bool
  is_group : Bool
  is_at_me : Bool
  media_path : Option String
  media_url : Option String
  file_name : Option String
  file_size : Option String
  voice_text : Option String
deriving DecidableEq, Repr

/-- A raw wxauto message object as `_on_message` probes it with `hasattr`:
each `Option` field is `some _` exactly when the attribute exists;
`strRepr` is `str(msg)`, the fallback used when `content` is missing. -/
structure RawMsg where
  typeK : Option String
  contentK : Option String
  strRepr : String
  senderK : Option String
  attrK : Option String
  filenameK : Option String
  filesizeK : Option String
deriving Repr

/-- Oracle for the effectful sub-steps of `_on_message`: whether the parent
chat reports `chat_type == 'group'`; the `(media_path, media_url)` pair
`_download_media` returns for this message; and the transcript
`_convert_voice_to_text` returns. -/
structure NormOracle where
  isGroup : Bool
  download : Option String × Option String
  voiceText : Option String

/-- Shallow embedding of `WeChatHandler._on_message` (wechat_handler.py
lines 259-341): the canonical message handed to the message callback, or
`none` when no callback fires.  Line-by-line: the type defaults to "text"
and the content to `str(msg)`; mention detection rewrites the content;
image/video/file messages get the download oracle's `(path, url)` (file
messages additionally `filename`/`filesize` when the attribute exists);
voice messages get the transcription oracle; `is_self` is
`msg.attr == "self"`; the callback fires iff it is set and the message is
not self-originated. -/
def on_message (nickname : Option String) (orc : NormOracle) (raw : RawMsg)
    (chat : String) (callbackSet : Bool) : Option WeChatMessage :=
  let msg_type := raw.typeK.getD "text"
  let m := mentionStep nickname (raw.contentK.getD raw.strRepr)
  let dl : Option String × Option String :=
    if msg_type ∈ ["image", "video", "file"] then orc.download else (none, none)
  let fileInfo : Option String × Option String :=
    if msg_type ∈ ["image", "video", "file"] ∧ msg_type = "file" then
      match raw.filenameK with
      | some fn => (some fn, raw.filesizeK)
      | none => (none, none)
    else (none, none)
  let voice_text : Option String :=
    if msg_type ∉ ["image", "video", "file"] ∧ msg_type = "voice" then
      orc.voiceText
    else none
  let wmsg : WeChatMessage :=
    ⟨raw.senderK.getD chat, m.2, chat, msg_type,
     decide (raw.attrK = some "self"), orc.isGroup, m.1,
     dl.1, dl.2, fileInfo.1, fileInfo.2, voice_text⟩
  if callbackSet ∧ wmsg.is_self = false then some wmsg else none

/-- The stream of canonical messages forwarded for a stream of raw backend
events: one callback invocation — and hence one `wechat.message` frame
pushed by `_push_message` — per `some` result of `on_message`. -/
def notificationsOf (nickname : Option String) (orc : NormOracle)
    (callbackSet : Bool) (events : List (RawMsg × String)) : List WeChatMessage :=
  events.filterMap (fun e => on_message nickname orc e.1 e.2 callbackSet)

/-- Shallow embedding of `WeChatBridge._build_message_text` (bridge.py
lines 407-461), the synthesized notification text.  Each `if msg.x:` of the
source is Python truthiness on an `Optional[str]`, i.e. `optTruthy`. -/
def build_message_text (m : WeChatMessage) : String :=
  if m.msg_type = "text" then m.content
  else if m.msg_type = "voice" then
    if optTruthy m.voice_text then "[语音消息] " ++ m.voice_text.getD ""
    else "[语音消息]（无法转文字）"
  else if m.msg_type = "image" then
    String.intercalate " "
      (["[图片消息]"]
        ++ (if optTruthy m.media_url then ["图片地址: " ++ m.media_url.getD ""] else [])
        ++ (if optTruthy m.media_path then ["本地路径: " ++ m.media_path.getD ""] else []))
  else if m.msg_type = "video" then
    String.intercalate " "
      (["[视频消息]"]
        ++ (if optTruthy m.media_url then ["视频地址: " ++ m.media_url.getD ""] else [])
        ++ (if optTruthy m.media_path then ["本地路径: " ++ m.media_path.getD ""] else []))
  else if m.msg_type = "file" then
    String.intercalate " "
      (["[文件消息]"]
        ++ (if optTruthy m.file_name then ["文件名: " ++ m.file_name.getD ""] else [])
        ++ (if optTruthy m.file_size then ["大小: " ++ m.file_size.getD ""] else [])
        ++ (if optTruthy m.media_url then ["下载地址: " ++ m.media_url.getD ""] else [])
        ++ (if optTruthy m.media_path then ["本地路径: " ++ m.media_path.getD ""] else []))
  else m.content

/-- One optional part of the synthesized text in the spec's phrasing: the
labelled value when present (Python-truthy), nothing otherwise. -/
def optPart (label : String) (v : Option String) : List String :=
  match v with
  | some s => if s = "" then [] else [label ++ s]
  | none => []

/-- The notification text as the specification's words describe it (spec
§4.4 "Text synthesis by messageKind" / claim C8), with the tag labels and
part labels being the source's literal strings: text — raw content
unchanged; voice — the tag then the transcript when one (non-empty) exists,
else the transcription-unavailable tag; image/video — tag label plus
remote-URL part and local-path part when present, space-joined; file — tag
label plus whichever of filename, size, download URL, local path are
present, space-joined; any other kind — raw content unchanged.  Written
independently of `build_message_text` to compare the two. -/
def buildMessageTextSpec (m : WeChatMessage) : String :=
  if m.msg_type = "text" then m.content
  else if m.msg_type = "voice" then
    match m.voice_text with
    | some t => if t = "" then "[语音消息]（无法转文字）" else "[语音消息] " ++ t
    | none => "[语音消息]（无法转文字）"
  else if m.msg_type = "image" then
    String.intercalate " "
      (["[图片消息]"] ++ optPart "图片地址: " m.media_url
        ++ optPart "本地路径: " m.media_path)
  else if m.msg_type = "video" then
    String.intercalate " "
      (["[视频消息]"] ++ optPart "视频地址: " m.media_url
        ++ optPart "本地路径: " m.media_path)
  else if m.msg_type = "file" then
    String.intercalate " "
      (["[文件消息]"] ++ optPart "文件名: " m.file_name
        ++ optPart "大小: " m.file_size ++ optPart "下载地址: " m.media_url
        ++ optPart "本地路径: " m.media_path)
  else m.content

/-- Filesystem oracle for the media route: `insideRoot p` is whether
`(media_dir / p).resolve().relative_to(media_dir.resolve())` succeeds,
`pathExists`/`isFile` probe the joined path, `readBytes` is the content of
`open(file_path, 'rb').read()` (bytes abstracted as a string), and
`guessType` is `mimetypes.guess_type` over the table including the
webp/mp4/amr/silk additions of the constructor. -/
structure MediaFS where
  insideRoot : String → Bool
  pathExists : String → Bool
  isFile : String → Bool
  readBytes : String → String
  guessType : String → Option String

/-- An HTTP response of the media route, plus a flag recording whether the
handler opened and read the file.  Only the explicitly set headers are
modelled (`Cache-Control` of the 200 branch; the `Content-Disposition`
header and the CORS middleware are not constrained by any claim). -/
structure MediaResponse where
  status : Nat
  body : Option String
  contentType : Option String
  cacheControl : Option String
  fileRead : Bool
deriving DecidableEq, Repr

/-- Shallow embedding of `MediaServer._handle_media` (media_server.py lines
119-171) for a `GET /media/{path}` request: 403 before any filesystem read
when the resolution escapes the media root; 404 when absent; 400 when not a
regular file; otherwise the file bytes with the inferred MIME type, falling
back to application/octet-stream, and `Cache-Control: public,
max-age=3600`. -/
def handle_media (fs : MediaFS) (path : String) : MediaResponse :=
  if fs.insideRoot path = false then ⟨403, some "Forbidden", none, none, false⟩
  else if fs.pathExists path = false then ⟨404, some "Not Found", none, none, false⟩
  else if fs.isFile path = false then ⟨400, some "Bad Request", none, none, false⟩
  else
    ⟨200, some (fs.readBytes path),
     some ((fs.guessType path).getD "application/octet-stream"),
     some "public, max-age=3600", true⟩

/-- Concrete normalizer oracle for witnesses and counterexamples. -/
def orcDemo : NormOracle := ⟨false, (none, none), none⟩

/-- A concrete self-originated raw event. -/
def rawSelfDemo : RawMsg :=
  ⟨some "text", some "ping", "ping", some "me", some "self", none, none⟩

/-- A concrete text message whose content "@@aaaa" contains the mention
token "@aa" of the account nicknamed "aa". -/
def rawAtDemo : RawMsg :=
  ⟨some "text", some "@@aaaa", "@@aaaa", some "bob", some "friend", none, none⟩

/-- A media filesystem on which every path resolution escapes the root. -/
def mediaFsEscape : MediaFS :=
  ⟨fun _ => false, fun _ => true, fun _ => true, fun _ => "secret", fun _ => none⟩

/-- A path filesystem on which no path exists. -/
def pathFsMissing : PathFS :=
  ⟨fun s => s, fun _ => false, fun _ => false, fun _ _ => false⟩

/-- Claim C1 (corrected form): `_handle_message` resolves a pending request
with value `v` exactly when the frame carries a matching string id together
with a `result` member holding `v` (in which case no response is sent back);
it never fails a pending future with an error — a Response envelope carrying
an `error` member instead of a `result` does not complete the caller at all;
and the pending entry is removed (only) when `_send_request`'s `finally`
runs, i.e. on completion-by-result or on timeout. -/
theorem c1_request_response_correlation {α : Type} [DecidableEq α]
    (run : String → HandlerRun α) (pending : List String) (d : InboundMsg α)
    (rid : String) (v : α) (s : CorrState α) (rid' : String) :
    ((handle_message run pending d).completion = some (rid, Except.ok v) ↔
      (d.idK = some (JsonId.str rid) ∧ d.resultK = some v ∧ rid ∈ pending)) ∧
    ((handle_message run pending d).completion = some (rid, Except.ok v) →
      (handle_message run pending d).reply = none) ∧
    (∀ (r : String) (e : RpcError),
      (handle_message run pending d).completion ≠ some (r, Except.error e)) ∧
    ((corrStep run (BridgeEvent.finish rid') s).table = s.table.erase rid') := by
  obtain ⟨idK, resultK, errorK, methodK⟩ := d
  refine ⟨?_, ?_, ?_, rfl⟩
  · cases idK with
    | none => cases resultK <;> simp [handle_message]
    | some i =>
      cases resultK with
      | none => simp [handle_message]
      | some w =>
        cases i with
        | str t =>
          by_cases ht : t ∈ pending <;>
            simp [handle_message, ht] <;> aesop
        | num n => simp [handle_message]
        | nul => simp [handle_message]
  · cases idK with
    | none => cases resultK <;> simp [handle_message]
    | some i =>
      cases resultK with
      | none => simp [handle_message]
      | some w =>
        cases i with
        | str t =>
          by_cases ht : t ∈ pending <;> simp [handle_message, ht]
        | num n => simp [handle_message]
        | nul => simp [handle_message]
  · intro r e
    cases idK with
    | none => cases resultK <;> simp [handle_message]
    | some i =>
      cases resultK with
      | none => simp [handle_message]
      | some w =>
        cases i with
        | str t =>
          by_cases ht : t ∈ pending <;> simp [handle_message, ht]
        | num n => simp [handle_message]
        | nul => simp [handle_message]

/-- Witness for C1: a concrete matched response resolves the pending entry,
and finishing removes it. -/
theorem c1_request_response_correlation_witness :
    (handle_message runNone ["r1"]
        (InboundMsg.mk (some (JsonId.str "r1")) (some "value") none none)).completion
      = some ("r1", Except.ok "value") ∧
    (corrStep runNone (BridgeEvent.finish "r1")
        (CorrState.mk ["r1"] [])).table = [] := by
  constructor
  · exact (c1_request_response_correlation runNone ["r1"]
      (InboundMsg.mk (some (JsonId.str "r1")) (some "value") none none)
      "r1" "value" (CorrState.mk ["r1"] []) "r1").1.mpr (by decide)
  · exact (c1_request_response_correlation runNone ["r1"]
      (InboundMsg.mk (some (JsonId.str "r1")) (some "value") none none)
      "r1" "value" (CorrState.mk ["r1"] []) "r1").2.2.2

/-- Counterexample to C1 as stated: a Response envelope carrying an `error`
object instead of a `result`, with an id matching the pending request "r1",
does not fail (or complete in any way) the pending caller — its completion
slot stays untouched, the entry stays in the table, and the frame is instead
dispatched as a request, answering the Gateway with a spurious
"Method not found: None" error. -/
theorem c1_counterexample :
    (corrStep runNone
        (BridgeEvent.frame
          (InboundMsg.mk (some (JsonId.str "r1")) none (some ⟨-32000, "boom"⟩) none))
        (CorrState.mk ["r1"] []))
      = CorrState.mk ["r1"] [] ∧
    (handle_message runNone ["r1"]
        (InboundMsg.mk (some (JsonId.str "r1")) none (some ⟨-32000, "boom"⟩) none)).completion
      = none ∧
    (handle_message runNone ["r1"]
        (InboundMsg.mk (some (JsonId.str "r1")) none (some ⟨-32000, "boom"⟩) none)).reply
      = some (JsonId.str "r1", RpcReply.err ⟨-32601, "Method not found: None"⟩) := by
  refine ⟨rfl, rfl, rfl⟩

/-- Claim C2 (corrected form): a session transition out of Open — connection
loss or `stop()` — leaves the pending-request table and every pending future
untouched; a pending request's entry disappears only when its own
`_send_request` finishes (result arrival or timeout), via the `finally` pop. -/
theorem c2_pending_survive_disconnect {α : Type} [DecidableEq α]
    (run : String → HandlerRun α) (s : CorrState α) (rid : String) :
    corrStep run BridgeEvent.connLost s = s ∧
    corrStep run BridgeEvent.stopped s = s ∧
    (corrStep run (BridgeEvent.finish rid) s).table = s.table.erase rid := by
  exact ⟨rfl, rfl, rfl⟩

/-- Counterexample to C2 as stated: with request "a" pending, the
connection-loss event leaves the table still containing "a" and records no
failure of its future — the pending request is not failed immediately with a
connection-lost error; it can only die later by its own timeout. -/
theorem c2_counterexample :
    corrStep runNone BridgeEvent.connLost (CorrState.mk ["a"] [])
      = CorrState.mk ["a"] [] ∧
    (corrStep runNone BridgeEvent.connLost (CorrState.mk ["a"] [])).completions
      = [] ∧
    "a" ∈ (corrStep runNone BridgeEvent.connLost (CorrState.mk ["a"] [])).table := by
  refine ⟨rfl, rfl, by decide⟩

theorem filesLoop_all_ok (fileRes : String → OpResult) (fs : List String)
    (h : ∀ g ∈ fs, (fileRes g).success = true) :
    filesLoop fileRes fs = (none, fs) := by
  induction fs with
  | nil => rfl
  | cons f rest ih =>
    have hf : (fileRes f).success = true := h f (by simp)
    have hr := ih (fun g hg => h g (by simp [hg]))
    simp [filesLoop, hf, hr]

theorem filesLoop_first_fail (fileRes : String → OpResult) (fs1 : List String)
    (f : String) (fs2 : List String)
    (h1 : ∀ g ∈ fs1, (fileRes g).success = true)
    (hf : (fileRes f).success = false) :
    filesLoop fileRes (fs1 ++ f :: fs2) = (some (fileRes f), fs1 ++ [f]) := by
  induction fs1 with
  | nil => simp [filesLoop, hf]
  | cons g rest ih =>
    have hg : (fileRes g).success = true := h1 g (by simp)
    have hr := ih (fun x hx => h1 x (by simp [hx]))
    simp [filesLoop, hg, hr]

theorem filesLoop_none_iff (fileRes : String → OpResult) (fs : List String) :
    (filesLoop fileRes fs).1 = none ↔ ∀ g ∈ fs, (fileRes g).success = true := by
  induction fs with
  | nil => simp [filesLoop]
  | cons f rest ih =>
    by_cases hf : (fileRes f).success = true
    · simp [filesLoop, hf, ih]
    · constructor
      · intro h
        rw [filesLoop] at h
        simp [hf] at h
      · intro h
        exact absurd (h f (by simp)) hf

/-- Claim C3: for an inbound `send` command, a missing or empty `to` yields
`{ok:false, error:"Missing 'to' parameter"}` with no backend operation
invoked; otherwise the listed files are sent first, in list order, aborting
on the first file failure with that failure's error and attempting nothing
further; the text is sent only after all files and only if non-empty;
`{ok:true}` is returned iff every attempted step succeeded; and for a
text-only send the backend's error text is passed through unmodified. -/
theorem c3_send_command (fileRes : String → OpResult) (msgRes : String → OpResult)
    (p : SendParams) :
    (optTruthy p.toK = false →
      handle_send fileRes msgRes p = ⟨false, some "Missing 'to' parameter", [], false⟩) ∧
    (optTruthy p.toK = true →
      ∀ fs1 f fs2, p.files = fs1 ++ f :: fs2 →
        (∀ g ∈ fs1, (fileRes g).success = true) → (fileRes f).success = false →
        handle_send fileRes msgRes p = ⟨false, (fileRes f).error, fs1 ++ [f], false⟩) ∧
    (optTruthy p.toK = true → (∀ g ∈ p.files, (fileRes g).success = true) →
      p.text ≠ "" →
      handle_send fileRes msgRes p =
        (if (msgRes p.text).success then ⟨true, none, p.files, true⟩
         else ⟨false, (msgRes p.text).error, p.files, true⟩)) ∧
    (optTruthy p.toK = true → (∀ g ∈ p.files, (fileRes g).success = true) →
      p.text = "" →
      handle_send fileRes msgRes p = ⟨true, none, p.files, false⟩) ∧
    ((handle_send fileRes msgRes p).ok = true ↔
      (optTruthy p.toK = true ∧ (∀ g ∈ p.files, (fileRes g).success = true) ∧
        (p.text ≠ "" → (msgRes p.text).success = true))) := by
  refine ⟨?_, ?_, ?_, ?_, ?_⟩
  · intro h
    simp [handle_send, h]
  · intro ht fs1 f fs2 hsplit h1 hf
    have hfl := filesLoop_first_fail fileRes fs1 f fs2 h1 hf
    simp [handle_send, ht, hsplit, hfl]
  · intro ht hall htext
    have hfl := filesLoop_all_ok fileRes p.files hall
    by_cases hs : (msgRes p.text).success = true <;>
      simp [handle_send, ht, hfl, htext, hs]
  · intro ht hall htext
    have hfl := filesLoop_all_ok fileRes p.files hall
    simp [handle_send, ht, hfl, htext]
  · by_cases ht : optTruthy p.toK = true
    · rcases hfl : (filesLoop fileRes p.files).1 with _ | r
      · have hall := (filesLoop_none_iff fileRes p.files).mp hfl
        have hpair := filesLoop_all_ok fileRes p.files hall
        by_cases htext : p.text = ""
        · simp [handle_send, ht, hpair, htext, hall]
          exact hall
        · by_cases hs : (msgRes p.text).success = true <;>
            simp [handle_send, ht, hpair, htext, hs, hall]
          exact hall
      · have hnot : ¬ ∀ g ∈ p.files, (fileRes g).success = true := by
          intro hall
          rw [(filesLoop_none_iff fileRes p.files).mpr hall] at hfl
          cases hfl
        simp [handle_send, ht, hfl, hnot]
    · have ht' : optTruthy p.toK = false := by simpa using ht
      simp [handle_send, ht', ht]

/-- Witness for C3: a text-only send against a backend whose three send
attempts all fail with "boom" yields `ok = false` with the backend's error
string passed through by the handler exactly as `send_message` produced
it. -/
theorem c3_send_command_witness :
    handle_send (fun _ => ⟨true, none⟩)
        (fun _ => send_message true
          [WxAttempt.fail "boom", WxAttempt.fail "boom", WxAttempt.fail "boom"])
        ⟨some "alice", "hi", []⟩
      = ⟨false, some "发送消息失败 (已重试 3 次): boom", [], true⟩ := by
  have h := (c3_send_command (fun _ => ⟨true, none⟩)
      (fun _ => send_message true
        [WxAttempt.fail "boom", WxAttempt.fail "boom", WxAttempt.fail "boom"])
      ⟨some "alice", "hi", []⟩).2.2.1 (by decide) (by simp) (by decide)
  rw [h]
  rfl

/-- Claim C4: for `GET /media/{path}`, a resolution escaping the media root
yields 403 with no file read; inside the root the response is 404 when the
path does not exist, 400 when it is not a regular file, and otherwise the
file bytes with the inferred MIME type (falling back to
application/octet-stream) and `Cache-Control: public, max-age=3600`; the file
is only ever read when the resolution stays inside the root. -/
theorem c4_media_route (fs : MediaFS) (p : String) :
    (fs.insideRoot p = false →
      handle_media fs p = ⟨403, some "Forbidden", none, none, false⟩) ∧
    (fs.insideRoot p = true → fs.pathExists p = false →
      handle_media fs p = ⟨404, some "Not Found", none, none, false⟩) ∧
    (fs.insideRoot p = true → fs.pathExists p = true → fs.isFile p = false →
      handle_media fs p = ⟨400, some "Bad Request", none, none, false⟩) ∧
    (fs.insideRoot p = true → fs.pathExists p = true → fs.isFile p = true →
      handle_media fs p =
        ⟨200, some (fs.readBytes p),
         some ((fs.guessType p).getD "application/octet-stream"),
         some "public, max-age=3600", true⟩) ∧
    ((handle_media fs p).fileRead = true → fs.insideRoot p = true) := by
  refine ⟨?_, ?_, ?_, ?_, ?_⟩
  · intro h1
    simp [handle_media, h1]
  · intro h1 h2
    simp [handle_media, h1, h2]
  · intro h1 h2 h3
    simp [handle_media, h1, h2, h3]
  · intro h1 h2 h3
    simp [handle_media, h1, h2, h3]
  · intro hr
    by_cases h1 : fs.insideRoot p = false
    · rw [handle_media] at hr
      simp [h1] at hr
    · simpa using h1

/-- Witness for C4: on a filesystem oracle where every resolution escapes
the root, a traversal-shaped request gets a 403 and the handler reads no
file. -/
theorem c4_media_route_witness :
    handle_media mediaFsEscape "../../etc/passwd"
      = ⟨403, some "Forbidden", none, none, false⟩ ∧
    (handle_media mediaFsEscape "../../etc/passwd").fileRead = false := by
  constructor
  · exact (c4_media_route mediaFsEscape "../../etc/passwd").1 rfl
  · rw [(c4_media_route mediaFsEscape "../../etc/passwd").1 rfl]

/-- Claim C5: a backend message event whose attribute marks it as
self-originated never reaches the message callback, and a stream consisting
of such events produces no forwarded notification at all. -/
theorem c5_self_filter (nickname : Option String) (orc : NormOracle) (raw : RawMsg)
    (chat : String) (cb : Bool) (events : List (RawMsg × String))
    (hself : raw.attrK = some "self")
    (hall : ∀ e ∈ events, e.1.attrK = some "self") :
    on_message nickname orc raw chat cb = none ∧
    notificationsOf nickname orc cb events = [] := by
  constructor
  · simp [on_message, hself]
  · rw [notificationsOf, List.filterMap_eq_nil_iff]
    intro e he
    simp [on_message, hall e he]

/-- Witness for C5: two concrete self-originated events yield no
notification. -/
theorem c5_self_filter_witness :
    on_message none orcDemo rawSelfDemo "c" true = none ∧
    notificationsOf none orcDemo true [(rawSelfDemo, "c"), (rawSelfDemo, "d")] = [] :=
  c5_self_filter none orcDemo rawSelfDemo "c" true
    [(rawSelfDemo, "c"), (rawSelfDemo, "d")] rfl (by decide)

/-- Claim C6 (corrected form): for an inbound Request envelope (no `result`
member) whose method is not one of the eight known methods, the dispatcher
computes the error `{code: -32601, message: "Method not found: <method>"}`,
and a response is sent back exactly when the envelope carried a *truthy* id
(a non-empty string or a non-zero number): envelopes whose id is absent —
or present but falsy, such as `""`, `0` or `null` — get no response; in
every case the frame is processed to completion (no pending future is
touched and the read loop is not disturbed). -/
theorem c6_dispatch {α : Type} (run : String → HandlerRun α) (pending : List String)
    (d : InboundMsg α) (m : String)
    (hreq : d.resultK = none) (hm : d.methodK = some m) (hunk : m ∉ knownMethods) :
    (handle_message run pending d).reply =
      (match d.idK with
       | some rid =>
         if rid.truthy = true then
           some (rid, RpcReply.err ⟨-32601, "Method not found: " ++ m⟩)
         else none
       | none => none) ∧
    (handle_message run pending d).completion = none := by
  rcases hid : d.idK with _ | rid
  · constructor <;> simp [handle_message, hid, hreq]
  · by_cases htr : rid.truthy = true <;>
      constructor <;>
        simp [handle_message, handle_message.dispatchBody, hid, hreq, hm, hunk, htr]

/-- Witness for C6: the spec's concrete scenario — inbound
`{"id":"2","method":"bogus"}` — answers with the -32601 error response
`"Method not found: bogus"`. -/
theorem c6_dispatch_witness :
    (handle_message runNone []
        (⟨some (JsonId.str "2"), none, none, some "bogus"⟩ : InboundMsg String)).reply
      = some (JsonId.str "2", RpcReply.err ⟨-32601, "Method not found: bogus"⟩) := by
  have h := (c6_dispatch runNone []
      (⟨some (JsonId.str "2"), none, none, some "bogus"⟩ : InboundMsg String)
      "bogus" rfl rfl (by decide)).1
  rw [h]
  rfl

/-- Counterexample to C6 as stated: the envelope
`{"id": "", "method": "bogus"}` carries an id, yet no response at all is
sent back — `if request_id:` is a truthiness test, so a present-but-falsy
id is silently dropped. -/
theorem c6_counterexample :
    (⟨some (JsonId.str ""), none, none, some "bogus"⟩ : InboundMsg String).idK ≠ none ∧
    (handle_message runNone []
        (⟨some (JsonId.str ""), none, none, some "bogus"⟩ : InboundMsg String)).reply
      = none := by
  exact ⟨by decide, rfl⟩

/-- Claim C7 (corrected form): for a text message from a non-self sender,
the forwarded canonical message is flagged `is_at_me` exactly when the
token `@<nickname>` occurs in the raw content; in that case the forwarded
text is the content with the left-to-right non-overlapping occurrences of
the token deleted and the result stripped of surrounding whitespace (which
can still contain the token when a deletion concatenates adjacent
characters into a fresh occurrence); without the token the content is
unaltered; and for the text kind the pushed notification text is exactly
the message content. -/
theorem c7_mention (nick : String) (orc : NormOracle) (raw : RawMsg)
    (chat content : String)
    (hnick : nick ≠ "")
    (htype : raw.typeK = some "text")
    (hcontent : raw.contentK = some content)
    (hattr : ¬ raw.attrK = some "self") :
    on_message (some nick) orc raw chat true =
      some ⟨raw.senderK.getD chat,
            (if containsTokS ("@" ++ nick) content = true
             then pyStripS (pyDeleteAll content ("@" ++ nick)) else content),
            chat, "text", false, orc.isGroup,
            containsTokS ("@" ++ nick) content,
            none, none, none, none, none⟩ ∧
    ((on_message (some nick) orc raw chat true).map build_message_text) =
      ((on_message (some nick) orc raw chat true).map WeChatMessage.content) := by
  have hm : mentionStep (some nick) content =
      (containsTokS ("@" ++ nick) content,
       if containsTokS ("@" ++ nick) content = true
       then pyStripS (pyDeleteAll content ("@" ++ nick)) else content) := by
    by_cases h : containsTokS ("@" ++ nick) content = true <;>
      simp [mentionStep, hnick, h]
  have h1 : on_message (some nick) orc raw chat true =
      some ⟨raw.senderK.getD chat,
            (if containsTokS ("@" ++ nick) content = true
             then pyStripS (pyDeleteAll content ("@" ++ nick)) else content),
            chat, "text", false, orc.isGroup,
            containsTokS ("@" ++ nick) content,
            none, none, none, none, none⟩ := by
    simp [on_message, htype, hcontent, hm, hattr]
  refine ⟨h1, ?_⟩
  rw [h1]
  simp [build_message_text]

/-- Witness for C7: the account nicknamed "bob" receiving "hi @bob" gets
`is_at_me = true` and forwarded content "hi"; here the token is gone. -/
theorem c7_mention_witness :
    on_message (some "bob") orcDemo
        (⟨some "text", some "hi @bob", "hi @bob", some "amy", some "friend", none, none⟩)
        "room" true
      = some ⟨"amy", "hi", "room", "text", false, false, true,
              none, none, none, none, none⟩ := by
  have h := (c7_mention "bob" orcDemo
      (⟨some "text", some "hi @bob", "hi @bob", some "amy", some "friend", none, none⟩)
      "room" "hi @bob" (by decide) rfl rfl (by decide)).1
  rw [h]
  decide

/-- Counterexample to C7 as stated: with nickname "aa" and raw content
"@@aaaa", the mention flag is set, but deleting the occurrences of "@aa"
concatenates the leftover characters into "@aa" — the forwarded text still
contains the token, and it is exactly the text the bridge pushes. -/
theorem c7_counterexample :
    on_message (some "aa") orcDemo rawAtDemo "chat" true =
      some ⟨"bob", "@aa", "chat", "text", false, false, true,
            none, none, none, none, none⟩ ∧
    containsTokS "@aa" "@aa" = true ∧
    build_message_text ⟨"bob", "@aa", "chat", "text", false, false, true,
            none, none, none, none, none⟩ = "@aa" := by
  refine ⟨by decide, by decide, by decide⟩

/-- Claim C8: the synthesized notification text is the byte-for-byte
deterministic function of the canonical message that the specification
describes — `build_message_text` coincides with the spec-side
`buildMessageTextSpec` on every message: raw content for the text kind;
the voice tag plus transcript (or the transcription-unavailable tag) for
voice; the tag label plus the present remote/local parts, space-joined,
for image and video; the tag label plus whichever of filename, size,
download URL and local path are present, space-joined, for file; and the
raw content unchanged for every other kind. -/
theorem c8_text_synthesis (m : WeChatMessage) :
    build_message_text m = buildMessageTextSpec m := by
  have hopt : ∀ (label : String) (v : Option String),
      optPart label v = if optTruthy v then [label ++ v.getD ""] else [] := by
    intro label v
    cases v with
    | none => simp [optPart, optTruthy]
    | some s => by_cases hs : s = "" <;> simp [optPart, optTruthy, hs]
  rw [build_message_text, buildMessageTextSpec]
  by_cases h1 : m.msg_type = "text"
  · simp [h1]
  · by_cases h2 : m.msg_type = "voice"
    · cases hv : m.voice_text with
      | none => simp [h1, h2, hv, optTruthy]
      | some t => by_cases ht : t = "" <;> simp [h1, h2, hv, optTruthy, ht]
    · by_cases h3 : m.msg_type = "image"
      · simp [h1, h2, h3, hopt]
      · by_cases h4 : m.msg_type = "video"
        · simp [h1, h2, h3, h4, hopt]
        · by_cases h5 : m.msg_type = "file"
          · simp [h1, h2, h3, h4, h5, hopt]
          · simp [h1, h2, h3, h4, h5]

/-- Claim C9: while the backend is connected, adding the same listener
twice succeeds both times and leaves the name in the table exactly once
(the second call returns before consulting the backend, whatever it would
answer), and removing an absent listener succeeds and leaves the table
unchanged. -/
theorem c9_listener_idempotent (chats : List String) (name : String)
    (h : chats.count name ≤ 1) (call2 : ListenCall) (rcall : RemoveCall) :
    ((add_listener true ListenCall.ok chats name).1.success = true) ∧
    ((add_listener true ListenCall.ok chats name).2.count name = 1) ∧
    ((add_listener true call2
        (add_listener true ListenCall.ok chats name).2 name).1.success = true) ∧
    ((add_listener true call2
        (add_listener true ListenCall.ok chats name).2 name).2
      = (add_listener true ListenCall.ok chats name).2) ∧
    (name ∉ chats → remove_listener true rcall chats name = (⟨true, none⟩, chats)) := by
  by_cases hm : name ∈ chats
  · have h1 : add_listener true ListenCall.ok chats name = (⟨true, none⟩, chats) := by
      simp [add_listener, hm]
    have hc : chats.count name = 1 := by
      have hpos : 0 < chats.count name := List.count_pos_iff.mpr hm
      omega
    refine ⟨by simp [h1], by simp [h1, hc], ?_, ?_, ?_⟩
    · simp [h1, add_listener, hm]
    · simp [h1, add_listener, hm]
    · intro habs
      exact absurd hm habs
  · have h1 : add_listener true ListenCall.ok chats name
        = (⟨true, none⟩, chats ++ [name]) := by
      simp [add_listener, hm]
    have hmem : name ∈ chats ++ [name] := by simp
    have hc : (chats ++ [name]).count name = 1 := by
      have hz : chats.count name = 0 := List.count_eq_zero.mpr hm
      simp [List.count_append, hz]
    refine ⟨by simp [h1], by simp [h1, hc], ?_, ?_, ?_⟩
    · rw [h1]
      simp [add_listener, hmem]
    · rw [h1]
      simp [add_listener, hmem]
    · intro _
      simp [remove_listener, hm]

/-- Witness for C9: starting from the table ["x"], adding "g" (backend
succeeds), adding "g" again (backend now failing is irrelevant) and
removing the absent "g" from ["x"] behave as the claim says. -/
theorem c9_listener_idempotent_witness :
    (add_listener true ListenCall.ok ["x"] "g").1.success = true ∧
    (add_listener true ListenCall.fails
        (add_listener true ListenCall.ok ["x"] "g").2 "g").1.success = true ∧
    (add_listener true ListenCall.fails
        (add_listener true ListenCall.ok ["x"] "g").2 "g").2.count "g" = 1 ∧
    remove_listener true RemoveCall.ok ["x"] "g" = (⟨true, none⟩, ["x"]) := by
  obtain ⟨a, b, c, d, e⟩ :=
    c9_listener_idempotent ["x"] "g" (by decide) ListenCall.fails RemoveCall.ok
  refine ⟨a, c, ?_, e (by decide)⟩
  rw [d]
  exact b

theorem splitSep_ne_nil (s : List Char) : splitSep s ≠ [] := by
  induction s with
  | nil => simp [splitSep]
  | cons c rest ih =>
    by_cases hc : isSep c = true
    · simp [splitSep, hc]
    · rcases hsr : splitSep rest with _ | ⟨g, gs⟩
      · exact absurd hsr ih
      · simp [splitSep, hc, hsr]

theorem splitSep_head_isPre (s : List Char) (g : List Char) (gs : List (List Char))
    (h : splitSep s = g :: gs) : g.isPrefixOf s = true := by
  induction s generalizing g gs with
  | nil =>
    rw [splitSep] at h
    obtain ⟨rfl, rfl⟩ := List.cons.inj h.symm
    rfl
  | cons c rest ih =>
    by_cases hc : isSep c = true
    · rw [splitSep, if_pos hc] at h
      obtain ⟨rfl, rfl⟩ := List.cons.inj h.symm
      rfl
    · rcases hsr : splitSep rest with _ | ⟨g', gs'⟩
      · exact absurd hsr (splitSep_ne_nil rest)
      · rw [splitSep, if_neg hc, hsr] at h
        obtain ⟨h1, h2⟩ := List.cons.inj h.symm
        subst h1
        have hg := ih g' gs' hsr
        simp [List.isPrefixOf, hg]

theorem mem_splitSep_containsTok (pat : List Char) (hne : pat ≠ []) (s : List Char)
    (h : pat ∈ splitSep s) : containsTok pat s = true := by
  induction s with
  | nil =>
    rw [splitSep] at h
    simp at h
    exact absurd h hne
  | cons c rest ih =>
    by_cases hc : isSep c = true
    · rw [splitSep, if_pos hc] at h
      rcases List.mem_cons.mp h with h | h
      · exact absurd h hne
      · simp [containsTok, ih h]
    · rcases hsr : splitSep rest with _ | ⟨g, gs⟩
      · exact absurd hsr (splitSep_ne_nil rest)
      · rw [splitSep, if_neg hc, hsr] at h
        rcases List.mem_cons.mp h with h | h
        · subst h
          have hg := splitSep_head_isPre rest g gs hsr
          simp [containsTok, List.isPrefixOf, hg]
        · have hmem : pat ∈ splitSep rest := by
            rw [hsr]
            exact List.mem_cons_of_mem g h
          simp [containsTok, ih hmem]

theorem hasDotDot_containsTok (s : String) (h : hasDotDotComponent s = true) :
    containsTok ['.', '.'] s.data = true :=
  mem_splitSep_containsTok ['.', '.'] (by simp) s.data (of_decide_eq_true h)

/-- Claim C10 (implicit): for a file-send operation (the `sendFile` command
and each entry of a `send` command's files list both go through
`WeChatHandler.send_file`), the local path is validated before the backend
is invoked — when the resolved path does not exist, is not a regular file,
contains a `..` component after normalization, or (when the
`WECHAT_ALLOWED_FILE_DIRS` whitelist is non-empty) lies outside every
whitelisted directory, the operation returns a `{success: false}` result
carrying an error message and the backend `SendFiles` call is never
reached. -/
theorem c10_file_validation (fs : PathFS) (allowedDirs : List String)
    (backend : WxAttempt) (fp : String) :
    (fs.pathExists (fs.resolve fp) = false →
      (send_file true fs allowedDirs backend fp).1.success = false ∧
      (send_file true fs allowedDirs backend fp).1.error ≠ none ∧
      (send_file true fs allowedDirs backend fp).2 = false) ∧
    (fs.isFile (fs.resolve fp) = false →
      (send_file true fs allowedDirs backend fp).1.success = false ∧
      (send_file true fs allowedDirs backend fp).1.error ≠ none ∧
      (send_file true fs allowedDirs backend fp).2 = false) ∧
    (hasDotDotComponent (fs.resolve fp) = true →
      (send_file true fs allowedDirs backend fp).1.success = false ∧
      (send_file true fs allowedDirs backend fp).1.error ≠ none ∧
      (send_file true fs allowedDirs backend fp).2 = false) ∧
    (allowedDirs ≠ [] →
      (∀ d ∈ allowedDirs, fs.relOk (fs.resolve fp) (fs.resolve d) = false) →
      (send_file true fs allowedDirs backend fp).1.success = false ∧
      (send_file true fs allowedDirs backend fp).1.error ≠ none ∧
      (send_file true fs allowedDirs backend fp).2 = false) := by
  have key : (validate_file_path fs allowedDirs fp).1 = false →
      ((send_file true fs allowedDirs backend fp).1.success = false ∧
       (send_file true fs allowedDirs backend fp).1.error ≠ none ∧
       (send_file true fs allowedDirs backend fp).2 = false) := by
    intro hv
    simp [send_file, hv]
  refine ⟨?_, ?_, ?_, ?_⟩
  · intro h
    apply key
    simp [validate_file_path, h]
  · intro h
    apply key
    by_cases he : fs.pathExists (fs.resolve fp) = false
    · simp [validate_file_path, he]
    · simp [validate_file_path, he, h]
  · intro h
    apply key
    have hsub := hasDotDot_containsTok (fs.resolve fp) h
    by_cases he : fs.pathExists (fs.resolve fp) = false
    · simp [validate_file_path, he]
    · by_cases hf : fs.isFile (fs.resolve fp) = false
      · simp [validate_file_path, he, hf]
      · simp [validate_file_path, he, hf, hsub]
  · intro hne hout
    apply key
    by_cases he : fs.pathExists (fs.resolve fp) = false
    · simp [validate_file_path, he]
    · by_cases hf : fs.isFile (fs.resolve fp) = false
      · simp [validate_file_path, he, hf]
      · by_cases hdd : containsTok ['.', '.'] (fs.resolve fp).data = true
        · simp [validate_file_path, he, hf, hdd]
        · have hw : (!allowedDirs.isEmpty &&
              allowedDirs.all
                (fun d => !(fs.relOk (fs.resolve fp) (fs.resolve d)))) = true := by
            simp [List.isEmpty_iff, hne, List.all_eq_true]
            intro d hd
            simp [hout d hd]
          simp [validate_file_path, he, hf, hdd, hw]

/-- Witness for C10: on a filesystem where the path does not exist, the
send-file operation fails and never reaches the backend. -/
theorem c10_file_validation_witness :
    (send_file true pathFsMissing [] WxAttempt.ok "C:/x.txt").1.success = false ∧
    (send_file true pathFsMissing [] WxAttempt.ok "C:/x.txt").2 = false := by
  obtain ⟨a, _, b⟩ :=
    (c10_file_validation pathFsMissing [] WxAttempt.ok "C:/x.txt").1 rfl
  exact ⟨a, b⟩
